import Mathlib

/-!
Verification of mupdf `source/fitz/error.c`: the structured exception-handling
emulation (bounded try-frame stack, completion-code state machine, throw engine)
and the deduplicating warning log.

Shallow embedding conventions:
  * C strings become Lean `String`; the external formatter's truncating write
    into a bounded buffer of `cap` bytes (`fz_vsnprintf` followed by forced
    null-termination) becomes `fz_vsnprintf cap s`, which keeps the first
    `cap - 1` characters.
  * `fprintf(stderr, ...)` output is collected as a `List String` of emitted
    lines (without the trailing newline).
  * The mutable `fz_context` fields become explicit state records which each
    operation takes and returns.
  * `longjmp` / `exit` become the `ThrowOut` outcome type: `throw` either
    jumps to the top frame (carrying the updated state) or terminates the
    process (carrying the final state and the terminal diagnostic lines);
    process termination is a terminal constructor, so no effect can follow it.
-/

namespace MupdfError

/-- Truncating formatter write: `fz_vsnprintf(buf, cap, ...)` followed by
`buf[cap-1] = 0` stores at most `cap - 1` characters of the formatted text.
The formatting itself is an external collaborator; its fully formatted output
is the argument `s`. -/
def fz_vsnprintf (cap : Nat) (s : String) : String :=
  ⟨s.data.take (cap - 1)⟩

/-- Warning-log state: `ctx->warn->message` (pending message) and
`ctx->warn->count` (repeat counter). -/
structure WarnState where
  message : String
  count : Nat

/-- The initial warning log: empty pending message, count 0. -/
def warnInit : WarnState := ⟨"", 0⟩

/-- The summary line `fprintf(stderr, "warning: ... repeated %d times ...\n", count)`. -/
def warningsRepeatedLine (n : Nat) : String :=
  "warning: ... repeated " ++ toString n ++ " times ..."

/-- `fz_flush_warnings`: if the pending count is > 1 emit the repeat-summary
line; always clear the pending message and reset the count to 0.
Returns (new state, emitted lines). -/
def fz_flush_warnings (w : WarnState) : WarnState × List String :=
  (⟨"", 0⟩, if w.count > 1 then [warningsRepeatedLine w.count] else [])

/-- `fz_vwarn`: format into `buf` (here `buf` is the already-formatted text).
If `buf` equals the pending message, increment the count and emit nothing;
otherwise flush, emit `warning: buf`, record `buf` with count 1. -/
def fz_vwarn (w : WarnState) (buf : String) : WarnState × List String :=
  if buf = w.message then
    ({ w with count := w.count + 1 }, [])
  else
    let f := fz_flush_warnings w
    (⟨buf, 1⟩, f.2 ++ ["warning: " ++ buf])

/-- Run a sequence of `fz_vwarn` calls, concatenating the emitted lines. -/
def warnRun (w : WarnState) : List String → WarnState × List String
  | [] => (w, [])
  | b :: bs =>
    let r := fz_vwarn w b
    let rest := warnRun r.1 bs
    (rest.1, r.2 ++ rest.2)

theorem warnRun_append (w : WarnState) (xs ys : List String) :
    warnRun w (xs ++ ys) =
      ((warnRun (warnRun w xs).1 ys).1,
        (warnRun w xs).2 ++ (warnRun (warnRun w xs).1 ys).2) := by
  induction xs generalizing w with
  | nil => simp [warnRun]
  | cons x xs ih => simp [warnRun, ih, List.append_assoc]

theorem warnRun_replicate_same (k : Nat) (t : String) (c : Nat) :
    warnRun ⟨t, c⟩ (List.replicate k t) = (⟨t, c + k⟩, []) := by
  induction k generalizing c with
  | zero => simp [warnRun]
  | succ n ih =>
    simp only [List.replicate_succ, warnRun, fz_vwarn, if_pos rfl]
    simp [ih]
    omega

/-! ## Error context -/

/-- Modelled from the spec: the error-code enumeration lives in a header that
is not under `src/`; the spec fixes NONE = 0 ("no error") and requires GENERIC
and ABORT to be further distinct codes. The concrete values of GENERIC and
ABORT are representative; no theorem depends on them beyond distinctness. -/
def FZ_ERROR_NONE : Nat := 0

/-- Modelled from the spec: the default recoverable, logged error kind. -/
def FZ_ERROR_GENERIC : Nat := 1

/-- Modelled from the spec: deliberate silent cancellation, never logged. -/
def FZ_ERROR_ABORT : Nat := 2

/-- Error-context state: the frame stack `ctx->error->stack`/`top` (here the
list of completion codes, head = top frame; `[]` is `top == stack - 1`, i.e.
the top index is `frames.length - 1`), the last-error record
`ctx->error->errcode` / `ctx->error->message`, and the warning log. The saved
`jmp_buf` continuations are opaque and carry no data the claims mention, so a
frame is represented by its completion code alone. -/
structure ErrorCtx where
  frames : List Nat
  errcode : Nat
  message : String
  warn : WarnState

/-- Outcome of `throw`: either a `longjmp` to the top frame's continuation
(carrying the mutated state), or — with no frame left — the terminal
diagnostic followed by `exit(EXIT_FAILURE)`. `exitProcess` is a terminal
constructor: the process halts, so no further effect can be observed. -/
inductive ThrowOut where
  | jump (s : ErrorCtx)
  | exitProcess (s : ErrorCtx) (lines : List String)

/-- `throw(ctx)`: if the stack is non-empty (`top >= stack`), add 2 to the top
frame's code and `longjmp` to its continuation; otherwise print
`uncaught exception: <message>` and terminate the process. -/
def throwEngine (s : ErrorCtx) : ThrowOut :=
  match s.frames with
  | c :: rest => .jump { s with frames := (c + 2) :: rest }
  | [] => .exitProcess s ["uncaught exception: " ++ s.message]

/-- `fz_fake_throw(ctx, code, fmt, ...)` with message capacity `cap`: record
the error code and (truncated) message; unless the code is ABORT, flush the
warnings and emit `error: <message>`; then synthesize a frame at the next slot
with code already 2. Returns (new state, emitted lines); the C function's
return value is the constant 0, which `fz_push_try` passes through. -/
def fz_fake_throw (cap : Nat) (s : ErrorCtx) (code : Nat) (text : String) :
    ErrorCtx × List String :=
  let s1 := { s with errcode := code, message := fz_vsnprintf cap text }
  if code ≠ FZ_ERROR_ABORT then
    let f := fz_flush_warnings s1.warn
    ({ s1 with warn := f.1, frames := 2 :: s1.frames },
      f.2 ++ ["error: " ++ s1.message])
  else
    ({ s1 with frames := 2 :: s1.frames }, [])

/-- `fz_push_try(ctx)` with stack capacity `cap` (the C `nelem(stack)`) and
message capacity `mcap`: if `top + 2 >= stack + cap` — with top index
`frames.length - 1`, that is `frames.length + 1 ≥ cap` — refuse entry via
`fz_fake_throw(GENERIC, "exception stack overflow!")` and return `false`
("do not run body"); otherwise push a frame with code 0 and return `true`.
Returns (new state, run-body flag, emitted lines). -/
def fz_push_try (cap mcap : Nat) (s : ErrorCtx) : ErrorCtx × Bool × List String :=
  if s.frames.length + 1 ≥ cap then
    let r := fz_fake_throw mcap s FZ_ERROR_GENERIC "exception stack overflow!"
    (r.1, false, r.2)
  else
    ({ s with frames := 0 :: s.frames }, true, [])

/-- `fz_caught(ctx)`: the stored last-error code. -/
def fz_caught (s : ErrorCtx) : Nat := s.errcode

/-- `fz_caught_message(ctx)`: the stored last-error message. -/
def fz_caught_message (s : ErrorCtx) : String := s.message

/-- `fz_vthrow(ctx, code, fmt, ap)` with message capacity `cap`: record the
code and the truncated formatted message; unless the code is ABORT, flush the
warnings and emit `error: <message>`; finally call `throw`. The function
never returns: its result is the `ThrowOut` outcome of `throw`. -/
def fz_vthrow (cap : Nat) (s : ErrorCtx) (code : Nat) (text : String) :
    List String × ThrowOut :=
  let s1 := { s with errcode := code, message := fz_vsnprintf cap text }
  if code ≠ FZ_ERROR_ABORT then
    let f := fz_flush_warnings s1.warn
    (f.2 ++ ["error: " ++ s1.message], throwEngine { s1 with warn := f.1 })
  else
    ([], throwEngine s1)

/-- `fz_rethrow(ctx)`: re-invoke `throw` with the stored last-error record. -/
def fz_rethrow (s : ErrorCtx) : ThrowOut := throwEngine s

/-- Outcome of `fz_rethrow_if`: either a normal return with the (unchanged)
state, or the non-returning rethrow. -/
inductive RethrowIfOut where
  | noop (s : ErrorCtx)
  | thrown (t : ThrowOut)

/-- `fz_rethrow_if(ctx, err)`: rethrow iff the stored error code equals
`err`; otherwise return normally. -/
def fz_rethrow_if (s : ErrorCtx) (err : Nat) : RethrowIfOut :=
  if s.errcode = err then .thrown (fz_rethrow s) else .noop s

/-! ## Completion-code state machine (per-frame try/always/catch protocol)

The state machine is documented in `error.c`: when we first setjmp, the code
is 0; whenever we throw, we add 2 to the top frame's code; whenever we enter
the always block, we add 1, and the always block is entered only if the code
is < 3. The `throw` transition is implemented by `throwEngine` above
(`top->code += 2`). -/

/-- The `throw` transition on the top frame's completion code: add 2
(`ctx->error->top->code += 2` in `throw`). -/
def throwCode (c : Nat) : Nat := c + 2

/-- Modelled from the spec: the always-region entry transition lives in the
`fz_always` macro, which is in a header not under `src/`; both the spec and
the state-machine comment in `error.c` give it as: add 1, but only if the
code is < 3 (the always region runs at most once, and never after a throw
from inside it). -/
def alwaysEnterCode (c : Nat) : Nat := if c < 3 then c + 1 else c

/-- The completion code observed at the catch point of one try/always/catch
region, as a function of the three events of the protocol: `tT` — the try
body threw; `aP` — an always region is present; `tA` — the always body threw
(only possible when the always region is present and was entered, i.e. the
code was < 3 at the always point). Follows the case analysis documented in
`error.c`. -/
def regionCatchCode (tT aP tA : Bool) : Nat :=
  let c1 := if tT then throwCode 0 else 0
  if aP then
    if c1 < 3 then
      let c2 := alwaysEnterCode c1
      if tA then throwCode c2 else c2
    else c1
  else c1

/-- Modelled from the spec: the table in §4.1 giving the code the catch
region must observe for each combination of throw/always events. Written
from the spec's words, to be compared with `regionCatchCode` (which is
written from the source's transitions). -/
def specTableCode (tT aP tA : Bool) : Nat :=
  if tT then
    if aP then (if tA then 5 else 3) else 2
  else
    if aP then (if tA then 3 else 1) else 0

/-! ## Reachable states of the frame stack

Operations that move the top pointer: a successful `fz_push_try` (push a
code-0 frame), a refused `fz_push_try` (fake-throw: synthesize a code-2
frame in the next slot), `throw` (top code += 2, top unmoved), and the pop
performed at the catch point (`ctx->error->top--` in the `fz_catch` macro,
modelled from the spec since the macro header is not under `src/`). The
`ovf` flag is ghost state recording that the top frame is a synthesized
overflow frame; the mupdf discipline that no new protected region is opened
from inside the refused try's always/catch handling (the synthesized frame is
popped at its catch point before any further push) is expressed by guarding
the push steps with `ovf = false`. -/

/-- Frame-stack state for the reachability analysis: the list of frame codes
(head = top, so the top index is `frames.length - 1`) plus the ghost flag
`ovf` marking that the top frame is the synthesized overflow frame. -/
structure StackSt where
  frames : List Nat
  ovf : Bool

/-- One operation on the frame stack, with capacity `cap`. -/
inductive StackStep (cap : Nat) : StackSt → StackSt → Prop
  | push (s : StackSt) (h : s.frames.length + 1 < cap) (h2 : s.ovf = false) :
      StackStep cap s ⟨0 :: s.frames, false⟩
  | pushOverflow (s : StackSt) (h : s.frames.length + 1 ≥ cap) (h2 : s.ovf = false) :
      StackStep cap s ⟨2 :: s.frames, true⟩
  | throwTop (s : StackSt) (c : Nat) (rest : List Nat) (h : s.frames = c :: rest) :
      StackStep cap s ⟨(c + 2) :: rest, s.ovf⟩
  | pop (s : StackSt) (c : Nat) (rest : List Nat) (h : s.frames = c :: rest) :
      StackStep cap s ⟨rest, false⟩

/-- A state is reachable if some sequence of operations produces it from the
initial empty stack (`top == stack - 1`). -/
def StackReachable (cap : Nat) (s : StackSt) : Prop :=
  Relation.ReflTransGen (StackStep cap) ⟨[], false⟩ s

/-! ## Claim theorems -/

/-- C1: for every frame, starting from code 0, with the transitions "a throw
adds 2 to the top frame's code" and "entering the always region adds 1, but
only if code < 3", the completion code observed when the catch region is
entered equals the §4.1 table entry for the given throw/always events and
lies in {0, 1, 2, 3, 5}; each of those five codes is attained by some event
combination, and code 4 is never produced. -/
theorem C1_region_code_matches_table :
    (∀ tT aP tA : Bool,
      regionCatchCode tT aP tA = specTableCode tT aP tA ∧
      regionCatchCode tT aP tA ∈ [0, 1, 2, 3, 5] ∧
      regionCatchCode tT aP tA ≠ 4) ∧
    (∃ a b c, regionCatchCode a b c = 0) ∧
    (∃ a b c, regionCatchCode a b c = 1) ∧
    (∃ a b c, regionCatchCode a b c = 2) ∧
    (∃ a b c, regionCatchCode a b c = 3) ∧
    (∃ a b c, regionCatchCode a b c = 5) := by
  decide

/-- C6: starting from an empty warning log, N ≥ 1 warns with identical
(non-empty) text `t` followed by a warn with different text `u` emit:
`warning: t`, then — only when N > 1 — exactly one summary line
`warning: ... repeated N times ...` immediately before `warning: u`. -/
theorem C6_warn_dedup (N : Nat) (t u : String) (h1 : 1 ≤ N) (h2 : t ≠ "")
    (h3 : u ≠ t) :
    (warnRun warnInit (List.replicate N t ++ [u])).2 =
      ["warning: " ++ t] ++ (if 2 ≤ N then [warningsRepeatedLine N] else [])
        ++ ["warning: " ++ u] := by
  obtain ⟨M, rfl⟩ : ∃ M, N = M + 1 := ⟨N - 1, by omega⟩
  have step1 : fz_vwarn warnInit t = (⟨t, 1⟩, ["warning: " ++ t]) := by
    simp [fz_vwarn, warnInit, fz_flush_warnings, h2]
  have step2 : warnRun (⟨t, 1⟩ : WarnState) (List.replicate M t ++ [u]) =
      (⟨u, 1⟩, (if 2 ≤ M + 1 then [warningsRepeatedLine (M + 1)] else [])
        ++ ["warning: " ++ u]) := by
    rw [warnRun_append, warnRun_replicate_same]
    by_cases hM : 2 ≤ M + 1
    · have h1M : 1 + M = M + 1 := Nat.add_comm 1 M
      have hM1 : 1 + M > 1 := by omega
      have hM0 : 0 < M := by omega
      simp [warnRun, fz_vwarn, h3, fz_flush_warnings, hM, hM1, h1M, hM0]
    · have hM0 : M = 0 := by omega
      subst hM0
      simp [warnRun, fz_vwarn, h3, fz_flush_warnings]
  rw [List.replicate_succ, List.cons_append]
  simp only [warnRun, step1, step2]
  simp [List.append_assoc]

/-- C6 witness: the dedup theorem at N = 3, t = "a", u = "b". -/
theorem C6_warn_dedup_witness :
    (warnRun warnInit (List.replicate 3 "a" ++ ["b"])).2 =
      ["warning: " ++ "a"]
        ++ (if 2 ≤ 3 then [warningsRepeatedLine 3] else [])
        ++ ["warning: " ++ "b"] :=
  C6_warn_dedup 3 "a" "b" (by decide) (by decide) (by decide)

/-- C7: counterexample to the claimed log. Three `warn("disk full")` calls
followed by `warn("done")` from an empty log emit the summary
`... repeated 3 times ...` (the count includes the first occurrence), not
`... repeated 2 times ...` as the claim states. -/
theorem C7_example_counterexample :
    (warnRun warnInit ["disk full", "disk full", "disk full", "done"]).2 =
      ["warning: disk full", warningsRepeatedLine 3, "warning: done"] ∧
    warningsRepeatedLine 3 ≠ warningsRepeatedLine 2 :=
  ⟨rfl, by decide⟩

/-- C7 (amended): `warn("disk full")` three times then `warn("done")` from an
empty warning log produce the lines `warning: disk full`, then
`warning: ... repeated 3 times ...`, then `warning: done`, in that order. -/
theorem C7_example_amended :
    (warnRun warnInit ["disk full", "disk full", "disk full", "done"]).2 =
      ["warning: disk full", "warning: ... repeated 3 times ...",
        "warning: done"] :=
  rfl

/-- C10: from the initial warning log (pending message empty, count 0), a
warn whose formatted text is empty is treated as a repeat of the empty
pending message: nothing is emitted and the count becomes 1, so the text is
never printed on its own; a later different warning can still emit a
repeat summary for it (here after two empty warns). -/
theorem C10_empty_warn :
    fz_vwarn warnInit "" = (⟨"", 1⟩, []) ∧
    (warnRun warnInit ["", "", "x"]).2 = [warningsRepeatedLine 2, "warning: x"] :=
  ⟨rfl, rfl⟩

/-- A fresh error context: empty frame stack, no error recorded, empty
warning log. -/
def errCtxInit : ErrorCtx := ⟨[], FZ_ERROR_NONE, "", warnInit⟩

theorem warningsRepeatedLine_ne_error (n : Nat) (x : String) :
    warningsRepeatedLine n ≠ "error: " ++ x := by
  intro h
  have hd : (warningsRepeatedLine n).data = ("error: " ++ x).data := by rw [h]
  simp only [warningsRepeatedLine, String.data_append] at hd
  simp at hd

/-- C2 counterexample: the message recorded by a refused `fz_push_try` is
`exception stack overflow!` (with a trailing exclamation mark), which is not
the claim's `exception stack overflow`. Concrete input: capacity 1, message
capacity 256, fresh context. -/
theorem C2_push_try_counterexample :
    (fz_push_try 1 256 errCtxInit).1.message = "exception stack overflow!" ∧
    ("exception stack overflow!" : String) ≠ "exception stack overflow" :=
  ⟨rfl, by decide⟩

/-- C2 (amended): if the top index plus 2 reaches the capacity (that is,
`frames.length + 1 ≥ cap`), `fz_push_try` does not push a normal frame and
returns `false` ("do not run body"): via the fake-throw path it records a
GENERIC error with message `exception stack overflow!` (truncated to the
message capacity), flushes the warnings and emits the error line, and
synthesizes a frame at the next slot with code already 2 — so popping that
frame at its catch point restores exactly the original frame sequence and
subsequent pushes behave correctly. Otherwise it pushes a frame with code 0,
emits nothing, and returns `true` ("run body"). -/
theorem C2_push_try_overflow (cap mcap : Nat) (s : ErrorCtx) :
    (cap ≤ s.frames.length + 1 →
      fz_push_try cap mcap s =
        ({ s with
            frames := 2 :: s.frames
            errcode := FZ_ERROR_GENERIC
            message := fz_vsnprintf mcap "exception stack overflow!"
            warn := ⟨"", 0⟩ },
          false,
          (fz_flush_warnings s.warn).2
            ++ ["error: " ++ fz_vsnprintf mcap "exception stack overflow!"])) ∧
    (s.frames.length + 1 < cap →
      fz_push_try cap mcap s = ({ s with frames := 0 :: s.frames }, true, [])) := by
  constructor
  · intro h
    have hc : s.frames.length + 1 ≥ cap := h
    simp [fz_push_try, fz_fake_throw, hc, FZ_ERROR_GENERIC, FZ_ERROR_ABORT,
      fz_flush_warnings]
  · intro h
    have hc : ¬ (s.frames.length + 1 ≥ cap) := by omega
    simp [fz_push_try, hc]

/-- C2 witness: the overflow branch at capacity 1 on a fresh context, and the
normal branch at capacity 4. -/
theorem C2_push_try_overflow_witness :
    fz_push_try 1 256 errCtxInit =
      ({ errCtxInit with
          frames := [2]
          errcode := FZ_ERROR_GENERIC
          message := fz_vsnprintf 256 "exception stack overflow!"
          warn := ⟨"", 0⟩ },
        false,
        (fz_flush_warnings errCtxInit.warn).2
          ++ ["error: " ++ fz_vsnprintf 256 "exception stack overflow!"]) ∧
    fz_push_try 4 256 errCtxInit = ({ errCtxInit with frames := [0] }, true, []) :=
  ⟨(C2_push_try_overflow 1 256 errCtxInit).1 (by decide),
    (C2_push_try_overflow 4 256 errCtxInit).2 (by decide)⟩

/-- C4: `throw` on an empty frame stack (top below the base) produces the
terminal outcome: exactly one diagnostic line, `uncaught exception: ` followed
by the stored error message, and process termination — a terminal constructor
of `ThrowOut`, after which no further effect can be observed and there is no
recovery. -/
theorem C4_uncaught_exit (s : ErrorCtx) (h : s.frames = []) :
    throwEngine s = .exitProcess s ["uncaught exception: " ++ s.message] ∧
    ["uncaught exception: " ++ s.message].length = 1 := by
  obtain ⟨fr, e, m, w⟩ := s
  simp only at h
  subst h
  exact ⟨rfl, rfl⟩

/-- C4 witness: the uncaught-throw outcome on a fresh context with a stored
message. -/
theorem C4_uncaught_exit_witness :
    throwEngine ⟨[], FZ_ERROR_GENERIC, "oops", warnInit⟩ =
      .exitProcess ⟨[], FZ_ERROR_GENERIC, "oops", warnInit⟩
        ["uncaught exception: " ++ "oops"] ∧
    ["uncaught exception: " ++ ("oops" : String)].length = 1 :=
  C4_uncaught_exit ⟨[], FZ_ERROR_GENERIC, "oops", warnInit⟩ rfl

/-- C5: `fz_vthrow` with a non-ABORT code first flushes the pending warnings
and then emits the error line — so warnings precede the error and the error
line is logged exactly once (it does not occur among the flush lines) — and
finishes by invoking `throw` on the state with the code and truncated message
recorded and the warning log flushed; with code ABORT nothing is emitted and
the pending warnings remain unflushed. In both cases the result is the
outcome of `throw`: the function never returns normally. -/
theorem C5_vthrow_logging (cap : Nat) (s : ErrorCtx) (code : Nat) (text : String) :
    (code ≠ FZ_ERROR_ABORT →
      (fz_vthrow cap s code text).1 =
        (fz_flush_warnings s.warn).2 ++ ["error: " ++ fz_vsnprintf cap text] ∧
      ("error: " ++ fz_vsnprintf cap text) ∉ (fz_flush_warnings s.warn).2 ∧
      (fz_vthrow cap s code text).2 =
        throwEngine { s with
          errcode := code
          message := fz_vsnprintf cap text
          warn := ⟨"", 0⟩ }) ∧
    (code = FZ_ERROR_ABORT →
      (fz_vthrow cap s code text).1 = [] ∧
      (fz_vthrow cap s code text).2 =
        throwEngine { s with
          errcode := code
          message := fz_vsnprintf cap text }) := by
  constructor
  · intro h
    refine ⟨by simp [fz_vthrow, h], ?_, by simp [fz_vthrow, h, fz_flush_warnings]⟩
    by_cases hc : s.warn.count > 1
    · simp only [fz_flush_warnings, if_pos hc, List.mem_singleton]
      intro hh
      exact warningsRepeatedLine_ne_error s.warn.count (fz_vsnprintf cap text) hh.symm
    · simp [fz_flush_warnings, hc]
  · intro h
    exact ⟨by simp [fz_vthrow, h], by simp [fz_vthrow, h]⟩

/-- C5 witness: the non-ABORT branch at code GENERIC on a context with a
pending repeated warning, and the ABORT branch on the same context. -/
theorem C5_vthrow_logging_witness :
    ((fz_vthrow 64 ⟨[0], 0, "", ⟨"w", 3⟩⟩ FZ_ERROR_GENERIC "boom").1 =
        (fz_flush_warnings (⟨"w", 3⟩ : WarnState)).2
          ++ ["error: " ++ fz_vsnprintf 64 "boom"] ∧
      ("error: " ++ fz_vsnprintf 64 "boom") ∉
        (fz_flush_warnings (⟨"w", 3⟩ : WarnState)).2 ∧
      (fz_vthrow 64 ⟨[0], 0, "", ⟨"w", 3⟩⟩ FZ_ERROR_GENERIC "boom").2 =
        throwEngine { (⟨[0], 0, "", ⟨"w", 3⟩⟩ : ErrorCtx) with
          errcode := FZ_ERROR_GENERIC
          message := fz_vsnprintf 64 "boom"
          warn := ⟨"", 0⟩ }) ∧
    ((fz_vthrow 64 ⟨[0], 0, "", ⟨"w", 3⟩⟩ FZ_ERROR_ABORT "boom").1 = [] ∧
      (fz_vthrow 64 ⟨[0], 0, "", ⟨"w", 3⟩⟩ FZ_ERROR_ABORT "boom").2 =
        throwEngine { (⟨[0], 0, "", ⟨"w", 3⟩⟩ : ErrorCtx) with
          errcode := FZ_ERROR_ABORT
          message := fz_vsnprintf 64 "boom" }) :=
  ⟨(C5_vthrow_logging 64 ⟨[0], 0, "", ⟨"w", 3⟩⟩ FZ_ERROR_GENERIC "boom").1
      (by decide),
    (C5_vthrow_logging 64 ⟨[0], 0, "", ⟨"w", 3⟩⟩ FZ_ERROR_ABORT "boom").2 rfl⟩

/-- C8: after `fz_vthrow(code, fmt, args)` on a non-empty stack, the throw
jumps to the matching frame carrying a state on which `fz_caught` returns
exactly `code` and `fz_caught_message` returns the formatted text truncated
to the message-buffer capacity (at most `cap - 1` characters, the last byte
being the forced null terminator). -/
theorem C8_caught_roundtrip (cap : Nat) (s : ErrorCtx) (code : Nat)
    (text : String) (c : Nat) (rest : List Nat) (h : s.frames = c :: rest) :
    ∃ s', (fz_vthrow cap s code text).2 = .jump s' ∧
      fz_caught s' = code ∧
      fz_caught_message s' = fz_vsnprintf cap text ∧
      (fz_caught_message s').length ≤ cap - 1 := by
  have hlen : (fz_vsnprintf cap text).length ≤ cap - 1 := by
    simp only [fz_vsnprintf, String.length_mk, List.length_take]
    exact min_le_left _ _
  obtain ⟨fr, e, m, w⟩ := s
  simp only at h
  subst h
  by_cases hab : code = FZ_ERROR_ABORT
  · refine ⟨⟨(c + 2) :: rest, code, fz_vsnprintf cap text, w⟩, ?_, rfl, rfl, hlen⟩
    simp [fz_vthrow, hab, throwEngine]
  · refine ⟨⟨(c + 2) :: rest, code, fz_vsnprintf cap text, ⟨"", 0⟩⟩, ?_, rfl, rfl,
      hlen⟩
    simp [fz_vthrow, hab, throwEngine, fz_flush_warnings]

/-- C8 witness: a throw of code 3 with text "hello world" under message
capacity 8 lands in the catch with `caught = 3` and the message truncated to
7 characters. -/
theorem C8_caught_roundtrip_witness :
    ∃ s', (fz_vthrow 8 ⟨[0], 0, "", warnInit⟩ 3 "hello world").2 = .jump s' ∧
      fz_caught s' = 3 ∧
      fz_caught_message s' = fz_vsnprintf 8 "hello world" ∧
      (fz_caught_message s').length ≤ 8 - 1 :=
  C8_caught_roundtrip 8 ⟨[0], 0, "", warnInit⟩ 3 "hello world" 0 [] rfl

/-- C9: `fz_rethrow_if(err)` rethrows (via `fz_rethrow`, i.e. the throw
engine on the stored last-error record) if and only if the stored error code
equals `err`; otherwise it returns normally with the state — frame stack,
last-error record and warning log — exactly unchanged. -/
theorem C9_rethrow_if_iff (s : ErrorCtx) (err : Nat) :
    ((∃ t, fz_rethrow_if s err = .thrown t) ↔ s.errcode = err) ∧
    (s.errcode ≠ err → fz_rethrow_if s err = .noop s) := by
  constructor
  · constructor
    · rintro ⟨t, ht⟩
      by_contra hne
      simp [fz_rethrow_if, hne] at ht
    · intro he
      exact ⟨fz_rethrow s, by simp [fz_rethrow_if, he]⟩
  · intro hne
    simp [fz_rethrow_if, hne]

/-- C3 counterexample: with capacity 2, pushing once (allowed: top index
becomes 0 = capacity − 2) and then pushing again triggers the fake-throw,
which synthesizes an overflow frame at the next slot: the reachable state
`⟨[2, 0], true⟩` has top index 1, which exceeds capacity − 2 = 0. So the top
index does not stay ≤ capacity − 2 at every reachable state: the synthesized
overflow frame itself sits in the reserved last slot at index capacity − 1. -/
theorem C3_stack_bound_counterexample :
    StackReachable 2 ⟨[2, 0], true⟩ ∧
    ¬ ((⟨[2, 0], true⟩ : StackSt).frames.length - 1 ≤ 2 - 2) := by
  constructor
  · exact Relation.ReflTransGen.tail
      (Relation.ReflTransGen.single (StackStep.push ⟨[], false⟩ (by norm_num) rfl))
      (StackStep.pushOverflow ⟨[0], false⟩ (by norm_num) rfl)
  · decide

/-- C3 (amended): at every reachable state of the error stack the top index
never exceeds capacity − 1, and whenever the top frame is not the synthesized
overflow frame the top index never exceeds capacity − 2 — the last slot is
reserved for, and only ever occupied by, a synthesized overflow frame. Stated
with `frames.length` = top index + 1: length ≤ cap always, and length + 1 ≤
cap unless the overflow frame is on top. -/
theorem C3_stack_bound (cap : Nat) (hcap : 1 ≤ cap) (s : StackSt)
    (h : StackReachable cap s) :
    s.frames.length ≤ cap ∧ (s.ovf = false → s.frames.length + 1 ≤ cap) := by
  induction h with
  | refl => exact ⟨Nat.zero_le cap, fun _ => hcap⟩
  | tail h1 h2 ih =>
    cases h2 with
    | push ht ht2 =>
      refine ⟨by simp; omega, fun _ => by simp; omega⟩
    | pushOverflow ht ht2 =>
      have := ih.2 ht2
      refine ⟨by simp; omega, fun hf => by simp at hf⟩
    | throwTop c rest ht =>
      have hl := ih.1
      have hl2 := ih.2
      rw [ht] at hl hl2
      exact ⟨by simpa using hl, fun hf => by simpa using hl2 hf⟩
    | pop c rest ht =>
      have hl := ih.1
      rw [ht] at hl
      simp at hl
      exact ⟨by simp; omega, fun _ => by simp; omega⟩

/-- C3 witness: the bound at capacity 2 for the reachable state with one
normal frame. -/
theorem C3_stack_bound_witness :
    (⟨[0], false⟩ : StackSt).frames.length ≤ 2 ∧
    ((⟨[0], false⟩ : StackSt).ovf = false →
      (⟨[0], false⟩ : StackSt).frames.length + 1 ≤ 2) :=
  C3_stack_bound 2 (by norm_num) ⟨[0], false⟩
    (Relation.ReflTransGen.single (StackStep.push ⟨[], false⟩ (by norm_num) rfl))

/-- C9 witness: with stored code 5, `fz_rethrow_if 5` rethrows and
`fz_rethrow_if 4` is a no-op returning the identical state. -/
theorem C9_rethrow_if_iff_witness :
    ((∃ t, fz_rethrow_if ⟨[0], 5, "m", warnInit⟩ 5 = .thrown t) ↔
      (⟨[0], 5, "m", warnInit⟩ : ErrorCtx).errcode = 5) ∧
    fz_rethrow_if ⟨[0], 5, "m", warnInit⟩ 4 = .noop ⟨[0], 5, "m", warnInit⟩ :=
  ⟨(C9_rethrow_if_iff ⟨[0], 5, "m", warnInit⟩ 5).1,
    (C9_rethrow_if_iff ⟨[0], 5, "m", warnInit⟩ 4).2 (by decide)⟩

end MupdfError
